import Mathlib

/-!
Verification of `src/src/utils.py` from the long-stayer risk stratification
baseline repository.

Modelling conventions:
* Python floats for lengths of stay, targets and predictions are modelled as
  rationals (`ℚ`); `math.ceil` is `Int.ceil`.
* A pandas dataframe is modelled as a `List` of rows; row order is the
  dataframe order, and split operations act on whole rows.
* `sklearn.model_selection.train_test_split` with float `train_size` and
  `test_size` draws a random permutation of the row indices from
  `random_state`, takes `ceil(test_size * n)` rows for the test part and the
  next `floor(train_size * n)` rows for the train part.  The drawn permutation
  is made an explicit argument `σ` (a permutation of `List.range n`).
* `estimator.fit` / `estimator.predict` are modelled by explicit functions
  together with an estimator state type `E`; the in-place mutation of the
  estimator by `fit` is modelled by returning the post-fit state.
* `mean_squared_error(..., squared=False)` is the real square root of the mean
  squared error; `np.clip(p, 0, None)` is `max p 0`.
-/

/-- The threshold chain of `risk_score` after `los` has been replaced by
`math.ceil(los)` (lines 20-29 of `utils.py`). -/
def riskOfCeil (l : ℤ) : ℤ :=
  if l > 15 then 5
  else if l > 13 then 4
  else if l > 10 then 3
  else if l > 6 then 2
  else 1

/-- `risk_score` from `utils.py`: round the length of stay up to whole days,
then bucket it with the threshold chain. -/
def risk_score (los : ℚ) : ℤ :=
  riskOfCeil ⌈los⌉

/-- Apply a drawn index order `σ` to the rows of a dataframe: row `i` of the
result is row `σ i` of the input.  Out-of-range indices are skipped; for a
true permutation of `List.range n` on an `n`-row frame none are skipped. -/
def applyPerm {α : Type} (σ : List ℕ) (xs : List α) : List α :=
  σ.filterMap (fun i => xs[i]?)

/-- sklearn `train_test_split` with a float `test_size` puts
`ceil(test_size * n)` rows into the test partition. -/
def nTestRows (test_size : ℚ) (n : ℕ) : ℕ :=
  ⌈test_size * n⌉.toNat

/-- sklearn `train_test_split` with a float `train_size` puts
`floor(train_size * n)` rows into the train partition. -/
def nTrainRows (train_size : ℚ) (n : ℕ) : ℕ :=
  ⌊train_size * n⌋.toNat

/-- The four dataframes returned by one `train_test_split` call. -/
structure TTSplit (α β : Type) where
  X_train : List α
  X_test : List α
  y_train : List β
  y_test : List β

/-- Model of `sklearn.model_selection.train_test_split(X, y,
train_size=..., test_size=..., random_state=...)`.  The permutation `σ`
drawn from `random_state` shuffles the row indices; the first
`ceil(test_size * n)` shuffled rows form the test part, the next
`floor(train_size * n)` shuffled rows the train part, and any remaining
shuffled rows are dropped.  `X` and `y` are indexed by the same `σ`. -/
def train_test_split {α β : Type} (X : List α) (y : List β)
    (train_size test_size : ℚ) (σ : List ℕ) : TTSplit α β :=
  let nte := nTestRows test_size X.length
  let ntr := nTrainRows train_size X.length
  let Xs := applyPerm σ X
  let ys := applyPerm σ y
  ⟨(Xs.drop nte).take ntr, Xs.take nte, (ys.drop nte).take ntr, ys.take nte⟩

/-- The six dataframes returned by `train_test_validate_split`. -/
structure TTVSplit (α β : Type) where
  X_train : List α
  X_validate : List α
  X_test : List α
  y_train : List β
  y_validate : List β
  y_test : List β

/-- `train_test_validate_split` from `utils.py`: first split off the train
part against a validate+test pool of fraction `validate_size + test_size`;
then split that pool again, passing the raw `validate_size` as the second
call's `train_size` and the raw `test_size` as its `test_size` (sklearn
returns the train part first, so the second call's train part is the
validate partition).  `σ₁` and `σ₂` are the permutations drawn by the two
sklearn calls from `random_state`. -/
def train_test_validate_split {α β : Type} (X : List α) (y : List β)
    (train_size validate_size test_size : ℚ) (σ₁ σ₂ : List ℕ) : TTVSplit α β :=
  let s1 := train_test_split X y train_size (validate_size + test_size) σ₁
  let s2 := train_test_split s1.X_test s1.y_test validate_size test_size σ₂
  ⟨s1.X_train, s2.X_train, s2.X_test, s1.y_train, s2.y_train, s2.y_test⟩

/-- `np.clip(preds, 0, None)`: floor every prediction at 0, no upper bound. -/
def clip0 (preds : List ℚ) : List ℚ :=
  preds.map (fun p => max p 0)

/-- `sklearn.metrics.mean_squared_error` (with `squared=True`): mean of the
squared differences. -/
def mean_squared_error (y_true y_pred : List ℚ) : ℚ :=
  ((y_true.zip y_pred).map (fun q => (q.1 - q.2) ^ 2)).sum / (y_true.length : ℚ)

/-- `mean_squared_error(..., squared=False)`: root-mean-squared-error. -/
noncomputable def rmse (y_true y_pred : List ℚ) : ℝ :=
  Real.sqrt ((mean_squared_error y_true y_pred : ℚ) : ℝ)

/-- Per-label F1 used by `sklearn.metrics.f1_score`: harmonic mean of
precision and recall over the (true, predicted) pairs, with the 0/0 cases
defined as 0 (rational division by zero is 0). -/
def f1ForLabel (pairs : List (ℚ × ℚ)) (l : ℚ) : ℚ :=
  let tp : ℚ := ((pairs.filter (fun q => q.1 == l && q.2 == l)).length : ℕ)
  let fp : ℚ := ((pairs.filter (fun q => q.1 != l && q.2 == l)).length : ℕ)
  let fn : ℚ := ((pairs.filter (fun q => q.1 == l && q.2 != l)).length : ℕ)
  let prec := tp / (tp + fp)
  let recl := tp / (tp + fn)
  2 * prec * recl / (prec + recl)

/-- `sklearn.metrics.f1_score(y_true, y_pred, average="weighted")`: average
of the per-label F1 scores over the labels occurring in `y_true`, weighted
by their support in `y_true`. -/
def f1_weighted (y_true y_pred : List ℚ) : ℚ :=
  let pairs := y_true.zip y_pred
  (y_true.dedup.map
      (fun l => ((y_true.filter (fun t => t == l)).length : ℚ) * f1ForLabel pairs l)).sum
    / (y_true.length : ℚ)

/-- The result dict built by `train_and_test_model`. -/
structure ModelResult (E : Type) where
  model : E
  train_metric : ℝ
  test_metric : ℝ
  scoring_metric : String

/-- `train_and_test_model` from `utils.py`.  The duck-typed estimator is
modelled by a state type `E` with explicit `fit` and `predict` functions;
the pair returned is (the Python return value or the raised error, the
state of the caller's estimator object after the call).  The estimator is
fitted and both prediction lists are computed and clipped to be
non-negative before the scoring-metric selector is examined; an
unrecognized selector raises `ValueError("Scoring metric incorrectly
specified")` after the fit has already happened. -/
noncomputable def train_and_test_model {F E : Type}
    (fit : E → List F → List ℚ → E) (predict : E → List F → List ℚ)
    (estimator : E) (X_train : List F) (y_train : List ℚ)
    (X_test : List F) (y_test : List ℚ) (scoring_metric : String) :
    Except String (ModelResult E) × E :=
  let m := fit estimator X_train y_train
  let preds_train := clip0 (predict m X_train)
  let preds_test := clip0 (predict m X_test)
  if scoring_metric = "rmse" then
    (Except.ok ⟨m, rmse y_train preds_train, rmse y_test preds_test, scoring_metric⟩, m)
  else if scoring_metric = "f1_weighted" then
    (Except.ok ⟨m, ((f1_weighted y_train preds_train : ℚ) : ℝ),
      ((f1_weighted y_test preds_test : ℚ) : ℝ), scoring_metric⟩, m)
  else
    (Except.error "Scoring metric incorrectly specified", m)

/-- Round a value to `d` decimal places (`round(x, d)` / `np.round`). -/
def roundTo (d : ℕ) (q : ℚ) : ℚ :=
  ((round (q * 10 ^ d) : ℤ) : ℚ) / 10 ^ d

/-- `sklearn.metrics.mean_absolute_error`: mean of absolute differences. -/
def mean_absolute_error (y_true y_pred : List ℚ) : ℚ :=
  ((y_true.zip y_pred).map (fun q => |q.1 - q.2|)).sum / (y_true.length : ℚ)

/-- The result dict built by the grid-search variant `train_model`. -/
structure GridSearchResult (E : Type) where
  cv_mean : ℚ
  cv_std : ℚ
  model : E
  metric : ℚ

/-- Modelled from the spec: the grid-search variant `train_model` (spec
§4.3) is not present under `src/`.  Per the spec, the search controller
(modelled by `search`, returning the cross-validation mean, the
cross-validation standard deviation, and the best estimator) is run; the cv
mean and std are rounded to 3 and 2 decimals; the best estimator is re-fit
on the full training set; predictions on the training set are clipped to be
non-negative; the selected evaluator — `"mean_absolute_error"` or
`"f1_weighted"`, anything else raising an invalid-argument error — is
computed against the training data and rounded to 3 decimals. -/
def train_model {F E : Type} (search : List F → List ℚ → ℚ × ℚ × E)
    (fit : E → List F → List ℚ → E) (predict : E → List F → List ℚ)
    (X_train : List F) (y_train : List ℚ) (evaluator : String) :
    Except String (GridSearchResult E) :=
  let s := search X_train y_train
  let best := fit s.2.2 X_train y_train
  let preds := clip0 (predict best X_train)
  if evaluator = "mean_absolute_error" then
    Except.ok ⟨roundTo 3 s.1, roundTo 2 s.2.1, best,
      roundTo 3 (mean_absolute_error y_train preds)⟩
  else if evaluator = "f1_weighted" then
    Except.ok ⟨roundTo 3 s.1, roundTo 2 s.2.1, best,
      roundTo 3 (f1_weighted y_train preds)⟩
  else
    Except.error "Evaluator incorrectly specified"

/-- Claim C1: `risk_score` is determined by the threshold table on
`ceil(los)`: 5 when `ceil los > 15`, 4 on `(13,15]`, 3 on `(10,13]`, 2 on
`(6,10]`, and 1 when `ceil los ≤ 6`; in particular `risk_score 6 = 1`,
`risk_score 6.01 = 2`, `risk_score 15 = 4`, `risk_score 15.01 = 5`, and
nonpositive input also yields 1 (the function is total, so no error). -/
theorem risk_score_threshold_table :
    (∀ los : ℚ, 15 < ⌈los⌉ → risk_score los = 5) ∧
    (∀ los : ℚ, 13 < ⌈los⌉ → ⌈los⌉ ≤ 15 → risk_score los = 4) ∧
    (∀ los : ℚ, 10 < ⌈los⌉ → ⌈los⌉ ≤ 13 → risk_score los = 3) ∧
    (∀ los : ℚ, 6 < ⌈los⌉ → ⌈los⌉ ≤ 10 → risk_score los = 2) ∧
    (∀ los : ℚ, ⌈los⌉ ≤ 6 → risk_score los = 1) ∧
    risk_score 6 = 1 ∧ risk_score (601 / 100) = 2 ∧
    risk_score 15 = 4 ∧ risk_score (1501 / 100) = 5 ∧
    (∀ los : ℚ, los ≤ 0 → risk_score los = 1) := by
  have hceil : ∀ los : ℚ, los ≤ 0 → ⌈los⌉ ≤ 6 := by
    intro los h
    have : ⌈los⌉ ≤ (0 : ℤ) := by
      rw [Int.ceil_le]
      exact_mod_cast h
    omega
  have h601 : ⌈(601 / 100 : ℚ)⌉ = 7 := by
    rw [Int.ceil_eq_iff] <;> norm_num
  have h1501 : ⌈(1501 / 100 : ℚ)⌉ = 16 := by
    rw [Int.ceil_eq_iff] <;> norm_num
  refine ⟨?_, ?_, ?_, ?_, ?_, ?_, ?_, ?_, ?_, ?_⟩
  · intro los h; unfold risk_score riskOfCeil; split_ifs <;> omega
  · intro los h h2; unfold risk_score riskOfCeil; split_ifs <;> omega
  · intro los h h2; unfold risk_score riskOfCeil; split_ifs <;> omega
  · intro los h h2; unfold risk_score riskOfCeil; split_ifs <;> omega
  · intro los h; unfold risk_score riskOfCeil; split_ifs <;> omega
  · norm_num [risk_score, riskOfCeil]
  · norm_num [risk_score, riskOfCeil, h601]
  · norm_num [risk_score, riskOfCeil]
  · norm_num [risk_score, riskOfCeil, h1501]
  · intro los h
    have h6 := hceil los h
    unfold risk_score riskOfCeil; split_ifs <;> omega

/-- Concrete instantiation of `risk_score_threshold_table`. -/
theorem risk_score_threshold_table_witness : risk_score 20 = 5 :=
  risk_score_threshold_table.1 20 (by norm_num)

/-- Claim C4: `risk_score` is monotone non-decreasing and always lands in
`{1, 2, 3, 4, 5}`. -/
theorem risk_score_monotone_and_range :
    (∀ a b : ℚ, a ≤ b → risk_score a ≤ risk_score b) ∧
    (∀ a : ℚ, risk_score a ∈ ({1, 2, 3, 4, 5} : Finset ℤ)) := by
  constructor
  · intro a b hab
    have h := Int.ceil_mono hab
    unfold risk_score riskOfCeil
    split_ifs <;> omega
  · intro a
    unfold risk_score riskOfCeil
    split_ifs <;> decide

/-- Concrete instantiation of `risk_score_monotone_and_range`. -/
theorem risk_score_monotone_and_range_witness :
    risk_score 3 ≤ risk_score 12 :=
  risk_score_monotone_and_range.1 3 12 (by norm_num)

/-- Claim C8: `risk_score` is a pure function of `⌈los⌉` alone: inputs with
the same ceiling get the same score, and the function literally factors
through `riskOfCeil ∘ Int.ceil` (so same input always gives the same output,
with no hidden state). -/
theorem risk_score_pure_of_ceil :
    (∀ a b : ℚ, ⌈a⌉ = ⌈b⌉ → risk_score a = risk_score b) ∧
    (∀ a : ℚ, risk_score a = riskOfCeil ⌈a⌉) :=
  ⟨fun _ _ h => by unfold risk_score; rw [h], fun _ => rfl⟩

/-- Concrete instantiation of `risk_score_pure_of_ceil`: `3` and `5/2` have
the same ceiling, hence the same risk score. -/
theorem risk_score_pure_of_ceil_witness :
    risk_score 3 = risk_score (5 / 2) :=
  risk_score_pure_of_ceil.1 3 (5 / 2) (by
    have h : ⌈(5 / 2 : ℚ)⌉ = 3 := by rw [Int.ceil_eq_iff] <;> norm_num
    norm_num [h])

theorem applyPerm_length {α : Type} (σ : List ℕ) (xs : List α)
    (h : ∀ i ∈ σ, i < xs.length) : (applyPerm σ xs).length = σ.length := by
  induction σ with
  | nil => rfl
  | cons a t ih =>
    have ha : a < xs.length := h a (List.mem_cons_self a t)
    simp only [applyPerm, List.filterMap_cons, List.getElem?_eq_getElem ha,
      List.length_cons]
    rw [← ih (fun i hi => h i (List.mem_cons_of_mem a hi))]
    rfl

theorem filterMap_getElem_range' {α : Type} (m : ℕ) :
    ∀ (k : ℕ) (xs : List α), k + m ≤ xs.length →
      (List.range' k m).filterMap (fun i => xs[i]?) = (xs.drop k).take m := by
  induction m with
  | zero => intro k xs _; simp
  | succ n ih =>
    intro k xs h
    have hk : k < xs.length := by omega
    rw [List.range'_succ, List.filterMap_cons, List.getElem?_eq_getElem hk,
      List.drop_eq_getElem_cons hk, List.take_succ_cons,
      ih (k + 1) xs (by omega)]

theorem applyPerm_range {α : Type} (xs : List α) :
    applyPerm (List.range xs.length) xs = xs := by
  rw [applyPerm, List.range_eq_range',
    filterMap_getElem_range' xs.length 0 xs (by omega)]
  simp

theorem applyPerm_perm {α : Type} (σ : List ℕ) (xs : List α)
    (h : σ.Perm (List.range xs.length)) : (applyPerm σ xs).Perm xs := by
  have h2 := List.Perm.filterMap (fun i => xs[i]?) h
  rw [show (List.range xs.length).filterMap (fun i => xs[i]?) = xs from
    applyPerm_range xs] at h2
  exact h2

theorem applyPerm_length_of_perm {α : Type} (σ : List ℕ) (xs : List α)
    (h : σ.Perm (List.range xs.length)) : (applyPerm σ xs).length = xs.length := by
  rw [(applyPerm_perm σ xs h).length_eq]

theorem mem_range_of_perm {σ : List ℕ} {n : ℕ} (h : σ.Perm (List.range n)) :
    ∀ i ∈ σ, i < n := by
  intro i hi
  have := h.mem_iff.mp hi
  exact List.mem_range.mp this

theorem applyPerm_subset {α : Type} (σ : List ℕ) (xs : List α) :
    ∀ a ∈ applyPerm σ xs, a ∈ xs := by
  intro a ha
  simp only [applyPerm, List.mem_filterMap] at ha
  obtain ⟨i, _, hi⟩ := ha
  exact List.getElem?_mem hi

theorem disjoint_take_drop {α : Type} {l : List α} (h : l.Nodup) (n m : ℕ) :
    List.Disjoint (l.take n) ((l.drop n).take m) := by
  have h2 : (l.take n ++ l.drop n).Nodup := by
    rw [List.take_append_drop]; exact h
  rw [List.nodup_append] at h2
  intro a ha hb
  exact h2.2.2 ha (List.take_subset m (l.drop n) hb)

theorem nTestRows_eq_of (tes : ℚ) (n : ℕ) (z : ℤ) (h : tes * (n : ℚ) = (z : ℚ)) :
    nTestRows tes n = z.toNat := by
  rw [nTestRows, h, Int.ceil_intCast]

theorem nTrainRows_eq_of (ts : ℚ) (n : ℕ) (z : ℤ) (h : ts * (n : ℚ) = (z : ℚ)) :
    nTrainRows ts n = z.toNat := by
  rw [nTrainRows, h, Int.floor_intCast]

theorem tts_lengths {α β : Type} (X : List α) (y : List β) (ts tes : ℚ)
    (σ : List ℕ) (hσ : σ.Perm (List.range X.length)) (hy : y.length = X.length) :
    (train_test_split X y ts tes σ).X_test.length
        = min (nTestRows tes X.length) X.length ∧
    (train_test_split X y ts tes σ).X_train.length
        = min (nTrainRows ts X.length) (X.length - nTestRows tes X.length) ∧
    (train_test_split X y ts tes σ).y_test.length
        = (train_test_split X y ts tes σ).X_test.length ∧
    (train_test_split X y ts tes σ).y_train.length
        = (train_test_split X y ts tes σ).X_train.length := by
  have hX : (applyPerm σ X).length = X.length := applyPerm_length_of_perm σ X hσ
  have hY : (applyPerm σ y).length = X.length := by
    rw [applyPerm_length σ y (fun i hi => by
      rw [hy]; exact mem_range_of_perm hσ i hi), hσ.length_eq, List.length_range]
  simp only [train_test_split, List.length_take, List.length_drop, hX, hY]
  exact ⟨trivial, trivial, trivial, trivial⟩

/-- Claim C2: `train_test_validate_split` first splits off a train part of
fraction `train_size` against a pool of fraction `validate_size +
test_size`, then re-splits that pool passing the raw `validate_size` and
`test_size` as the second split's train/test proportions without
renormalizing; on 100 rows with fractions 0.6/0.2/0.2 the train partition
has 60 rows, the pool has 40 rows, and the second split applies the literal
0.2/0.2 fractions to the 40-row pool, giving 8-row validate and test
partitions — not the renormalized 0.5/0.5 (which would give 20). -/
theorem ttv_split_raw_fraction_counts {α β : Type} :
    (∀ (X : List α) (y : List β) (ts vs tes : ℚ) (σ₁ σ₂ : List ℕ),
      σ₁.Perm (List.range X.length) → y.length = X.length →
      nTrainRows vs (train_test_split X y ts (vs + tes) σ₁).X_test.length
          + nTestRows tes (train_test_split X y ts (vs + tes) σ₁).X_test.length
          ≤ (train_test_split X y ts (vs + tes) σ₁).X_test.length →
      σ₂.Perm (List.range (train_test_split X y ts (vs + tes) σ₁).X_test.length) →
      (train_test_validate_split X y ts vs tes σ₁ σ₂).X_validate.length
          = nTrainRows vs (train_test_split X y ts (vs + tes) σ₁).X_test.length ∧
      (train_test_validate_split X y ts vs tes σ₁ σ₂).X_test.length
          = nTestRows tes (train_test_split X y ts (vs + tes) σ₁).X_test.length) ∧
    (∀ (X : List α) (y : List β) (σ₁ σ₂ : List ℕ),
      X.length = 100 → y.length = 100 →
      σ₁.Perm (List.range 100) → σ₂.Perm (List.range 40) →
      (train_test_validate_split X y (3/5) (1/5) (1/5) σ₁ σ₂).X_train.length = 60 ∧
      (train_test_split X y (3/5) (1/5 + 1/5) σ₁).X_test.length = 40 ∧
      (train_test_validate_split X y (3/5) (1/5) (1/5) σ₁ σ₂).X_validate.length = 8 ∧
      (train_test_validate_split X y (3/5) (1/5) (1/5) σ₁ σ₂).X_test.length = 8) ∧
    nTrainRows (1/5) 40 = 8 ∧ nTestRows (1/5) 40 = 8 ∧
    nTrainRows (1/2) 40 = 20 ∧ (8 : ℕ) ≠ 20 := by
  have e5 : nTrainRows (1/5) 40 = 8 := nTrainRows_eq_of _ _ 8 (by norm_num)
  have e6 : nTestRows (1/5) 40 = 8 := nTestRows_eq_of _ _ 8 (by norm_num)
  refine ⟨?_, ?_, e5, e6, nTrainRows_eq_of _ _ 20 (by norm_num), by omega⟩
  · intro X y ts vs tes σ₁ σ₂ h1 hy hle h2
    obtain ⟨hpool, -, hypool, -⟩ := tts_lengths X y ts (vs + tes) σ₁ h1 hy
    obtain ⟨hte, htr, -, -⟩ :=
      tts_lengths (train_test_split X y ts (vs + tes) σ₁).X_test
        (train_test_split X y ts (vs + tes) σ₁).y_test vs tes σ₂ h2 hypool
    constructor
    · show (train_test_split (train_test_split X y ts (vs + tes) σ₁).X_test
        (train_test_split X y ts (vs + tes) σ₁).y_test vs tes σ₂).X_train.length = _
      omega
    · show (train_test_split (train_test_split X y ts (vs + tes) σ₁).X_test
        (train_test_split X y ts (vs + tes) σ₁).y_test vs tes σ₂).X_test.length = _
      omega
  · intro X y σ₁ σ₂ hX hy h1 h2
    have e1 : nTestRows (1/5 + 1/5) 100 = 40 := nTestRows_eq_of _ _ 40 (by norm_num)
    have e2 : nTrainRows (3/5) 100 = 60 := nTrainRows_eq_of _ _ 60 (by norm_num)
    rw [← hX] at h1
    obtain ⟨hpool, htrain, hypool, -⟩ :=
      tts_lengths X y (3/5) (1/5 + 1/5) σ₁ h1 (hy.trans hX.symm)
    rw [hX, e1] at hpool
    rw [hX, e1, e2] at htrain
    have hpool40 : (train_test_split X y (3/5) (1/5 + 1/5) σ₁).X_test.length = 40 := by
      omega
    rw [← hpool40] at h2
    obtain ⟨hte, htr, -, -⟩ :=
      tts_lengths (train_test_split X y (3/5) (1/5 + 1/5) σ₁).X_test
        (train_test_split X y (3/5) (1/5 + 1/5) σ₁).y_test (1/5) (1/5) σ₂ h2 hypool
    rw [hpool40, e5, e6] at *
    refine ⟨by simpa [train_test_validate_split] using htrain, hpool40, ?_, ?_⟩
    · show (train_test_split (train_test_split X y (3/5) (1/5 + 1/5) σ₁).X_test
        (train_test_split X y (3/5) (1/5 + 1/5) σ₁).y_test (1/5) (1/5) σ₂).X_train.length = 8
      omega
    · show (train_test_split (train_test_split X y (3/5) (1/5 + 1/5) σ₁).X_test
        (train_test_split X y (3/5) (1/5 + 1/5) σ₁).y_test (1/5) (1/5) σ₂).X_test.length = 8
      omega

theorem applyPerm_range_self (n : ℕ) :
    applyPerm (List.range n) (List.range n) = List.range n := by
  have h := applyPerm_range (List.range n)
  rwa [List.length_range] at h

theorem ttv_concrete_pool :
    (train_test_split (List.range 100) (List.range 100) (3/5) (1/5 + 1/5)
        (List.range 100)).X_test = List.range 40 := by
  show (applyPerm (List.range 100) (List.range 100)).take
      (nTestRows (1/5 + 1/5) (List.range 100).length) = _
  rw [applyPerm_range_self, List.length_range,
    nTestRows_eq_of (1/5 + 1/5) 100 40 (by norm_num)]
  decide

theorem ttv_concrete_X_train :
    (train_test_validate_split (List.range 100) (List.range 100) (3/5) (1/5) (1/5)
        (List.range 100) (List.range 40)).X_train
      = ((List.range 100).drop 40).take 60 := by
  show ((applyPerm (List.range 100) (List.range 100)).drop
      (nTestRows (1/5 + 1/5) (List.range 100).length)).take
      (nTrainRows (3/5) (List.range 100).length) = _
  rw [applyPerm_range_self, List.length_range,
    nTestRows_eq_of (1/5 + 1/5) 100 40 (by norm_num),
    nTrainRows_eq_of (3/5) 100 60 (by norm_num)]
  rfl

theorem ttv_concrete_X_validate :
    (train_test_validate_split (List.range 100) (List.range 100) (3/5) (1/5) (1/5)
        (List.range 100) (List.range 40)).X_validate
      = ((List.range 40).drop 8).take 8 := by
  show ((applyPerm (List.range 40)
      (train_test_split (List.range 100) (List.range 100) (3/5) (1/5 + 1/5)
        (List.range 100)).X_test).drop
      (nTestRows (1/5) (train_test_split (List.range 100) (List.range 100) (3/5)
        (1/5 + 1/5) (List.range 100)).X_test.length)).take
      (nTrainRows (1/5) (train_test_split (List.range 100) (List.range 100) (3/5)
        (1/5 + 1/5) (List.range 100)).X_test.length) = _
  rw [ttv_concrete_pool, applyPerm_range_self, List.length_range,
    nTestRows_eq_of (1/5) 40 8 (by norm_num),
    nTrainRows_eq_of (1/5) 40 8 (by norm_num)]
  rfl

theorem ttv_concrete_X_test :
    (train_test_validate_split (List.range 100) (List.range 100) (3/5) (1/5) (1/5)
        (List.range 100) (List.range 40)).X_test
      = (List.range 40).take 8 := by
  show (applyPerm (List.range 40)
      (train_test_split (List.range 100) (List.range 100) (3/5) (1/5 + 1/5)
        (List.range 100)).X_test).take
      (nTestRows (1/5) (train_test_split (List.range 100) (List.range 100) (3/5)
        (1/5 + 1/5) (List.range 100)).X_test.length) = _
  rw [ttv_concrete_pool, applyPerm_range_self, List.length_range,
    nTestRows_eq_of (1/5) 40 8 (by norm_num)]
  rfl

/-- Counterexample to claim C5 as stated: on the 100-row dataset
`0, ..., 99` with fractions 0.6/0.2/0.2 (and identity shuffles), row `16`
belongs to the original dataset but to none of the three partitions — the
second split keeps only 8 + 8 of the 40 pool rows, so the partitions do not
account for every original row. -/
theorem ttv_split_misses_a_row :
    (16 : ℕ) ∈ List.range 100 ∧
    (16 : ℕ) ∉ (train_test_validate_split (List.range 100) (List.range 100) (3/5) (1/5)
      (1/5) (List.range 100) (List.range 40)).X_train ∧
    (16 : ℕ) ∉ (train_test_validate_split (List.range 100) (List.range 100) (3/5) (1/5)
      (1/5) (List.range 100) (List.range 40)).X_validate ∧
    (16 : ℕ) ∉ (train_test_validate_split (List.range 100) (List.range 100) (3/5) (1/5)
      (1/5) (List.range 100) (List.range 40)).X_test := by
  rw [ttv_concrete_X_train, ttv_concrete_X_validate, ttv_concrete_X_test]
  decide

/-- Claim C5 (amended): the three partitions returned by
`train_test_validate_split` are pairwise disjoint row subsets of the
original dataset (rows are treated whole, never split column-wise), but
they need not account for every original row: pool rows beyond the raw
validate/test fraction counts of the second split are dropped. -/
theorem ttv_split_disjoint_subsets {α β : Type} (X : List α) (y : List β)
    (ts vs tes : ℚ) (σ₁ σ₂ : List ℕ) (hnd : X.Nodup)
    (h1 : σ₁.Perm (List.range X.length)) (_hy : y.length = X.length)
    (h2 : σ₂.Perm (List.range
      (train_test_split X y ts (vs + tes) σ₁).X_test.length)) :
    (∀ a ∈ (train_test_validate_split X y ts vs tes σ₁ σ₂).X_train, a ∈ X) ∧
    (∀ a ∈ (train_test_validate_split X y ts vs tes σ₁ σ₂).X_validate, a ∈ X) ∧
    (∀ a ∈ (train_test_validate_split X y ts vs tes σ₁ σ₂).X_test, a ∈ X) ∧
    List.Disjoint (train_test_validate_split X y ts vs tes σ₁ σ₂).X_train
      (train_test_validate_split X y ts vs tes σ₁ σ₂).X_validate ∧
    List.Disjoint (train_test_validate_split X y ts vs tes σ₁ σ₂).X_train
      (train_test_validate_split X y ts vs tes σ₁ σ₂).X_test ∧
    List.Disjoint (train_test_validate_split X y ts vs tes σ₁ σ₂).X_validate
      (train_test_validate_split X y ts vs tes σ₁ σ₂).X_test := by
  have hXtr : (train_test_validate_split X y ts vs tes σ₁ σ₂).X_train
      = ((applyPerm σ₁ X).drop (nTestRows (vs + tes) X.length)).take
          (nTrainRows ts X.length) := rfl
  have hXva : (train_test_validate_split X y ts vs tes σ₁ σ₂).X_validate
      = ((applyPerm σ₂ ((applyPerm σ₁ X).take (nTestRows (vs + tes) X.length))).drop
          (nTestRows tes ((applyPerm σ₁ X).take
            (nTestRows (vs + tes) X.length)).length)).take
          (nTrainRows vs ((applyPerm σ₁ X).take
            (nTestRows (vs + tes) X.length)).length) := rfl
  have hXte : (train_test_validate_split X y ts vs tes σ₁ σ₂).X_test
      = (applyPerm σ₂ ((applyPerm σ₁ X).take (nTestRows (vs + tes) X.length))).take
          (nTestRows tes ((applyPerm σ₁ X).take
            (nTestRows (vs + tes) X.length)).length) := rfl
  have hXs : (applyPerm σ₁ X).Perm X := applyPerm_perm σ₁ X h1
  have hXsnd : (applyPerm σ₁ X).Nodup := hXs.symm.nodup hnd
  have hPnd : ((applyPerm σ₁ X).take (nTestRows (vs + tes) X.length)).Nodup :=
    (List.take_sublist _ _).nodup hXsnd
  have hPP : (applyPerm σ₂ ((applyPerm σ₁ X).take
      (nTestRows (vs + tes) X.length))).Perm
      ((applyPerm σ₁ X).take (nTestRows (vs + tes) X.length)) :=
    applyPerm_perm σ₂ _ h2
  have hPPnd : (applyPerm σ₂ ((applyPerm σ₁ X).take
      (nTestRows (vs + tes) X.length))).Nodup := hPP.symm.nodup hPnd
  have htrainX : ∀ a ∈ ((applyPerm σ₁ X).drop (nTestRows (vs + tes) X.length)).take
      (nTrainRows ts X.length), a ∈ X := fun a ha =>
    hXs.mem_iff.mp (List.drop_subset _ _ (List.take_subset _ _ ha))
  have hvaP : ∀ a ∈ ((applyPerm σ₂ ((applyPerm σ₁ X).take
      (nTestRows (vs + tes) X.length))).drop
      (nTestRows tes ((applyPerm σ₁ X).take
        (nTestRows (vs + tes) X.length)).length)).take
      (nTrainRows vs ((applyPerm σ₁ X).take
        (nTestRows (vs + tes) X.length)).length),
      a ∈ (applyPerm σ₁ X).take (nTestRows (vs + tes) X.length) := fun a ha =>
    hPP.mem_iff.mp (List.drop_subset _ _ (List.take_subset _ _ ha))
  have hteP : ∀ a ∈ (applyPerm σ₂ ((applyPerm σ₁ X).take
      (nTestRows (vs + tes) X.length))).take
      (nTestRows tes ((applyPerm σ₁ X).take
        (nTestRows (vs + tes) X.length)).length),
      a ∈ (applyPerm σ₁ X).take (nTestRows (vs + tes) X.length) := fun a ha =>
    hPP.mem_iff.mp (List.take_subset _ _ ha)
  have hPX : ∀ a ∈ (applyPerm σ₁ X).take (nTestRows (vs + tes) X.length), a ∈ X :=
    fun a ha => hXs.mem_iff.mp (List.take_subset _ _ ha)
  have hdisjPtrain : List.Disjoint
      ((applyPerm σ₁ X).take (nTestRows (vs + tes) X.length))
      (((applyPerm σ₁ X).drop (nTestRows (vs + tes) X.length)).take
        (nTrainRows ts X.length)) :=
    disjoint_take_drop hXsnd _ _
  have hdisjTeVa : List.Disjoint
      ((applyPerm σ₂ ((applyPerm σ₁ X).take (nTestRows (vs + tes) X.length))).take
        (nTestRows tes ((applyPerm σ₁ X).take
          (nTestRows (vs + tes) X.length)).length))
      (((applyPerm σ₂ ((applyPerm σ₁ X).take
          (nTestRows (vs + tes) X.length))).drop
        (nTestRows tes ((applyPerm σ₁ X).take
          (nTestRows (vs + tes) X.length)).length)).take
        (nTrainRows vs ((applyPerm σ₁ X).take
          (nTestRows (vs + tes) X.length)).length)) :=
    disjoint_take_drop hPPnd _ _
  rw [hXtr, hXva, hXte]
  refine ⟨htrainX, fun a ha => hPX a (hvaP a ha), fun a ha => hPX a (hteP a ha),
    ?_, ?_, ?_⟩
  · intro a ha hb
    exact hdisjPtrain (hvaP a hb) ha
  · intro a ha hb
    exact hdisjPtrain (hteP a hb) ha
  · intro a ha hb
    exact hdisjTeVa.symm ha hb

/-- Concrete instantiation of `ttv_split_disjoint_subsets` on the 100-row
dataset `0, ..., 99` with identity shuffles. -/
theorem ttv_split_disjoint_subsets_witness :
    List.Disjoint (train_test_validate_split (List.range 100) (List.range 100) (3/5)
        (1/5) (1/5) (List.range 100) (List.range 40)).X_train
      (train_test_validate_split (List.range 100) (List.range 100) (3/5)
        (1/5) (1/5) (List.range 100) (List.range 40)).X_validate ∧
    List.Disjoint (train_test_validate_split (List.range 100) (List.range 100) (3/5)
        (1/5) (1/5) (List.range 100) (List.range 40)).X_train
      (train_test_validate_split (List.range 100) (List.range 100) (3/5)
        (1/5) (1/5) (List.range 100) (List.range 40)).X_test ∧
    List.Disjoint (train_test_validate_split (List.range 100) (List.range 100) (3/5)
        (1/5) (1/5) (List.range 100) (List.range 40)).X_validate
      (train_test_validate_split (List.range 100) (List.range 100) (3/5)
        (1/5) (1/5) (List.range 100) (List.range 40)).X_test :=
  (ttv_split_disjoint_subsets (List.range 100) (List.range 100) (3/5) (1/5) (1/5)
    (List.range 100) (List.range 40) (List.nodup_range 100)
    (by rw [List.length_range]) (List.length_range 100)
    (by rw [ttv_concrete_pool, List.length_range])).2.2.2

/-- Concrete instantiation of `ttv_split_raw_fraction_counts` on the
100-row dataset `0, 1, ..., 99` with identity shuffles. -/
theorem ttv_split_raw_fraction_counts_witness :
    (train_test_validate_split (List.range 100) (List.range 100) (3/5) (1/5) (1/5)
        (List.range 100) (List.range 40)).X_train.length = 60 ∧
    (train_test_split (List.range 100) (List.range 100) (3/5) (1/5 + 1/5)
        (List.range 100)).X_test.length = 40 ∧
    (train_test_validate_split (List.range 100) (List.range 100) (3/5) (1/5) (1/5)
        (List.range 100) (List.range 40)).X_validate.length = 8 ∧
    (train_test_validate_split (List.range 100) (List.range 100) (3/5) (1/5) (1/5)
        (List.range 100) (List.range 40)).X_test.length = 8 :=
  (@ttv_split_raw_fraction_counts ℕ ℕ).2.1 (List.range 100) (List.range 100)
    (List.range 100) (List.range 40) (List.length_range 100) (List.length_range 100)
    (List.Perm.refl _) (List.Perm.refl _)

theorem take_zip_eq {α β : Type} (xs : List α) (ys : List β) (n : ℕ) :
    (xs.zip ys).take n = (xs.take n).zip (ys.take n) := by
  simp only [List.zip_eq_zipWith, List.take_zipWith]

theorem drop_zip_eq {α β : Type} (xs : List α) (ys : List β) (n : ℕ) :
    (xs.zip ys).drop n = (xs.drop n).zip (ys.drop n) := by
  simp only [List.zip_eq_zipWith, List.drop_zipWith]

theorem applyPerm_zip {α β : Type} (σ : List ℕ) (xs : List α) (ys : List β)
    (hlen : ys.length = xs.length) (h : ∀ i ∈ σ, i < xs.length) :
    applyPerm σ (xs.zip ys) = (applyPerm σ xs).zip (applyPerm σ ys) := by
  induction σ with
  | nil => rfl
  | cons a t ih =>
    have ha : a < xs.length := h a (List.mem_cons_self a t)
    have hb : a < ys.length := by omega
    have hz : a < (xs.zip ys).length := by
      rw [List.length_zip]; omega
    have ih2 := ih (fun i hi => h i (List.mem_cons_of_mem a hi))
    simp only [applyPerm] at ih2 ⊢
    simp only [List.filterMap_cons, List.getElem?_eq_getElem ha,
      List.getElem?_eq_getElem hb, List.getElem?_eq_getElem hz]
    rw [List.zip_cons_cons, ← ih2, List.getElem_zip]

/-- Claim C7: row correspondence of `train_test_validate_split` — in each
returned partition the feature rows and targets have equal length, pair up
positionally, and every such (feature-row, target) pair is a (feature-row,
target) pair of the original dataset. -/
theorem ttv_split_row_correspondence {α β : Type} (X : List α) (y : List β)
    (ts vs tes : ℚ) (σ₁ σ₂ : List ℕ)
    (hy : y.length = X.length) (h1 : σ₁.Perm (List.range X.length))
    (h2 : σ₂.Perm (List.range
      (train_test_split X y ts (vs + tes) σ₁).X_test.length)) :
    ((train_test_validate_split X y ts vs tes σ₁ σ₂).X_train.length
        = (train_test_validate_split X y ts vs tes σ₁ σ₂).y_train.length ∧
      ∀ p ∈ (train_test_validate_split X y ts vs tes σ₁ σ₂).X_train.zip
        (train_test_validate_split X y ts vs tes σ₁ σ₂).y_train, p ∈ X.zip y) ∧
    ((train_test_validate_split X y ts vs tes σ₁ σ₂).X_validate.length
        = (train_test_validate_split X y ts vs tes σ₁ σ₂).y_validate.length ∧
      ∀ p ∈ (train_test_validate_split X y ts vs tes σ₁ σ₂).X_validate.zip
        (train_test_validate_split X y ts vs tes σ₁ σ₂).y_validate, p ∈ X.zip y) ∧
    ((train_test_validate_split X y ts vs tes σ₁ σ₂).X_test.length
        = (train_test_validate_split X y ts vs tes σ₁ σ₂).y_test.length ∧
      ∀ p ∈ (train_test_validate_split X y ts vs tes σ₁ σ₂).X_test.zip
        (train_test_validate_split X y ts vs tes σ₁ σ₂).y_test, p ∈ X.zip y) := by
  have hσ₁mem : ∀ i ∈ σ₁, i < X.length := mem_range_of_perm h1
  have hZlen : (X.zip y).length = X.length := by
    rw [List.length_zip, hy, min_self]
  have hZperm : (applyPerm σ₁ (X.zip y)).Perm (X.zip y) := by
    refine applyPerm_perm σ₁ (X.zip y) ?_
    rw [hZlen]; exact h1
  obtain ⟨hpoolXlen, -, hypool, hytr⟩ := tts_lengths X y ts (vs + tes) σ₁ h1 hy
  have hσ₂mem : ∀ i ∈ σ₂, i <
      (train_test_split X y ts (vs + tes) σ₁).X_test.length :=
    mem_range_of_perm h2
  obtain ⟨-, -, hyte2, hytr2⟩ :=
    tts_lengths (train_test_split X y ts (vs + tes) σ₁).X_test
      (train_test_split X y ts (vs + tes) σ₁).y_test vs tes σ₂ h2 hypool
  have hpoolzip : (train_test_split X y ts (vs + tes) σ₁).X_test.zip
      (train_test_split X y ts (vs + tes) σ₁).y_test
      = (applyPerm σ₁ (X.zip y)).take (nTestRows (vs + tes) X.length) := by
    show ((applyPerm σ₁ X).take (nTestRows (vs + tes) X.length)).zip
      ((applyPerm σ₁ y).take (nTestRows (vs + tes) X.length)) = _
    rw [← take_zip_eq, ← applyPerm_zip σ₁ X y hy hσ₁mem]
  have hPZperm : (applyPerm σ₂ ((train_test_split X y ts (vs + tes) σ₁).X_test.zip
      (train_test_split X y ts (vs + tes) σ₁).y_test)).Perm
      ((train_test_split X y ts (vs + tes) σ₁).X_test.zip
        (train_test_split X y ts (vs + tes) σ₁).y_test) := by
    refine applyPerm_perm σ₂ _ ?_
    rw [List.length_zip, hypool, min_self]; exact h2
  have hzip2 : applyPerm σ₂ ((train_test_split X y ts (vs + tes) σ₁).X_test.zip
      (train_test_split X y ts (vs + tes) σ₁).y_test)
      = (applyPerm σ₂ (train_test_split X y ts (vs + tes) σ₁).X_test).zip
        (applyPerm σ₂ (train_test_split X y ts (vs + tes) σ₁).y_test) :=
    applyPerm_zip σ₂ _ _ hypool hσ₂mem
  have hmemZ : ∀ p ∈ applyPerm σ₁ (X.zip y), p ∈ X.zip y :=
    fun p hp => hZperm.mem_iff.mp hp
  have hmempool : ∀ p ∈ (train_test_split X y ts (vs + tes) σ₁).X_test.zip
      (train_test_split X y ts (vs + tes) σ₁).y_test, p ∈ X.zip y := by
    intro p hp
    rw [hpoolzip] at hp
    exact hmemZ p (List.take_subset _ _ hp)
  refine ⟨⟨hytr.symm, ?_⟩, ⟨hytr2.symm, ?_⟩, ⟨hyte2.symm, ?_⟩⟩
  · intro p hp
    have htrzip : (train_test_validate_split X y ts vs tes σ₁ σ₂).X_train.zip
        (train_test_validate_split X y ts vs tes σ₁ σ₂).y_train
        = ((applyPerm σ₁ (X.zip y)).drop (nTestRows (vs + tes) X.length)).take
            (nTrainRows ts X.length) := by
      show (((applyPerm σ₁ X).drop (nTestRows (vs + tes) X.length)).take
          (nTrainRows ts X.length)).zip
        (((applyPerm σ₁ y).drop (nTestRows (vs + tes) X.length)).take
          (nTrainRows ts X.length)) = _
      rw [← take_zip_eq, ← drop_zip_eq, ← applyPerm_zip σ₁ X y hy hσ₁mem]
    rw [htrzip] at hp
    exact hmemZ p (List.drop_subset _ _ (List.take_subset _ _ hp))
  · intro p hp
    have hvazip : (train_test_validate_split X y ts vs tes σ₁ σ₂).X_validate.zip
        (train_test_validate_split X y ts vs tes σ₁ σ₂).y_validate
        = ((applyPerm σ₂ ((train_test_split X y ts (vs + tes) σ₁).X_test.zip
              (train_test_split X y ts (vs + tes) σ₁).y_test)).drop
            (nTestRows tes (train_test_split X y ts (vs + tes) σ₁).X_test.length)).take
            (nTrainRows vs (train_test_split X y ts (vs + tes) σ₁).X_test.length) := by
      show (((applyPerm σ₂ (train_test_split X y ts (vs + tes) σ₁).X_test).drop
          (nTestRows tes (train_test_split X y ts (vs + tes) σ₁).X_test.length)).take
          (nTrainRows vs (train_test_split X y ts (vs + tes) σ₁).X_test.length)).zip
        (((applyPerm σ₂ (train_test_split X y ts (vs + tes) σ₁).y_test).drop
          (nTestRows tes (train_test_split X y ts (vs + tes) σ₁).X_test.length)).take
          (nTrainRows vs (train_test_split X y ts (vs + tes) σ₁).X_test.length)) = _
      rw [← take_zip_eq, ← drop_zip_eq, ← hzip2]
    rw [hvazip] at hp
    exact hmempool p (hPZperm.mem_iff.mp
      (List.drop_subset _ _ (List.take_subset _ _ hp)))
  · intro p hp
    have htezip : (train_test_validate_split X y ts vs tes σ₁ σ₂).X_test.zip
        (train_test_validate_split X y ts vs tes σ₁ σ₂).y_test
        = (applyPerm σ₂ ((train_test_split X y ts (vs + tes) σ₁).X_test.zip
            (train_test_split X y ts (vs + tes) σ₁).y_test)).take
            (nTestRows tes (train_test_split X y ts (vs + tes) σ₁).X_test.length) := by
      show ((applyPerm σ₂ (train_test_split X y ts (vs + tes) σ₁).X_test).take
          (nTestRows tes (train_test_split X y ts (vs + tes) σ₁).X_test.length)).zip
        ((applyPerm σ₂ (train_test_split X y ts (vs + tes) σ₁).y_test).take
          (nTestRows tes (train_test_split X y ts (vs + tes) σ₁).X_test.length)) = _
      rw [← take_zip_eq, ← hzip2]
    rw [htezip] at hp
    exact hmempool p (hPZperm.mem_iff.mp (List.take_subset _ _ hp))

/-- Concrete instantiation of `ttv_split_row_correspondence` on the 100-row
dataset with identity shuffles: the three partitions have matching
feature/target lengths. -/
theorem ttv_split_row_correspondence_witness :
    (train_test_validate_split (List.range 100) (List.range 100) (3/5) (1/5) (1/5)
        (List.range 100) (List.range 40)).X_train.length
      = (train_test_validate_split (List.range 100) (List.range 100) (3/5) (1/5) (1/5)
        (List.range 100) (List.range 40)).y_train.length ∧
    (train_test_validate_split (List.range 100) (List.range 100) (3/5) (1/5) (1/5)
        (List.range 100) (List.range 40)).X_validate.length
      = (train_test_validate_split (List.range 100) (List.range 100) (3/5) (1/5) (1/5)
        (List.range 100) (List.range 40)).y_validate.length ∧
    (train_test_validate_split (List.range 100) (List.range 100) (3/5) (1/5) (1/5)
        (List.range 100) (List.range 40)).X_test.length
      = (train_test_validate_split (List.range 100) (List.range 100) (3/5) (1/5) (1/5)
        (List.range 100) (List.range 40)).y_test.length := by
  have h := ttv_split_row_correspondence (List.range 100) (List.range 100) (3/5)
    (1/5) (1/5) (List.range 100) (List.range 40) (List.length_range 100)
    (by rw [List.length_range]) (by rw [ttv_concrete_pool, List.length_range])
  exact ⟨h.1.1, h.2.1.1, h.2.2.1⟩

/-- Claim C3: `train_and_test_model` raises the invalid-argument error iff
the scoring metric is neither `"rmse"` nor `"f1_weighted"` (e.g. `"xyz"`
raises); for a recognized metric it returns normally with a record holding
the fitted estimator, the training-set metric, the test-set metric, and the
scoring-metric identifier that was passed in. -/
theorem train_and_test_model_error_iff {F E : Type}
    (fit : E → List F → List ℚ → E) (predict : E → List F → List ℚ)
    (estimator : E) (X_train : List F) (y_train : List ℚ)
    (X_test : List F) (y_test : List ℚ) :
    (∀ sm : String,
      (∃ msg, (train_and_test_model fit predict estimator X_train y_train
          X_test y_test sm).1 = Except.error msg)
        ↔ ¬(sm = "rmse" ∨ sm = "f1_weighted")) ∧
    (∃ msg, (train_and_test_model fit predict estimator X_train y_train
        X_test y_test "xyz").1 = Except.error msg) ∧
    (∀ sm : String, sm = "rmse" ∨ sm = "f1_weighted" →
      ∃ res, (train_and_test_model fit predict estimator X_train y_train
          X_test y_test sm).1 = Except.ok res ∧
        res.model = fit estimator X_train y_train ∧
        res.train_metric = (if sm = "rmse"
          then rmse y_train (clip0 (predict (fit estimator X_train y_train) X_train))
          else ((f1_weighted y_train (clip0 (predict (fit estimator X_train y_train)
            X_train)) : ℚ) : ℝ)) ∧
        res.test_metric = (if sm = "rmse"
          then rmse y_test (clip0 (predict (fit estimator X_train y_train) X_test))
          else ((f1_weighted y_test (clip0 (predict (fit estimator X_train y_train)
            X_test)) : ℚ) : ℝ)) ∧
        res.scoring_metric = sm) := by
  refine ⟨?_, ?_, ?_⟩
  · intro sm
    by_cases g1 : sm = "rmse"
    · subst g1; simp [train_and_test_model]
    · by_cases g2 : sm = "f1_weighted"
      · subst g2; simp [train_and_test_model]
      · simp [train_and_test_model, g1, g2]
  · simp [train_and_test_model]
  · intro sm hsm
    rcases hsm with h | h
    · subst h
      refine ⟨⟨fit estimator X_train y_train,
        rmse y_train (clip0 (predict (fit estimator X_train y_train) X_train)),
        rmse y_test (clip0 (predict (fit estimator X_train y_train) X_test)),
        "rmse"⟩, ?_, rfl, ?_, ?_, rfl⟩
      · simp [train_and_test_model]
      · simp
      · simp
    · subst h
      refine ⟨⟨fit estimator X_train y_train,
        ((f1_weighted y_train (clip0 (predict (fit estimator X_train y_train)
          X_train)) : ℚ) : ℝ),
        ((f1_weighted y_test (clip0 (predict (fit estimator X_train y_train)
          X_test)) : ℚ) : ℝ), "f1_weighted"⟩, ?_, rfl, ?_, ?_, rfl⟩
      · simp [train_and_test_model]
      · simp
      · simp

/-- Concrete instantiation of `train_and_test_model_error_iff` on a toy
estimator with metric `"rmse"`. -/
theorem train_and_test_model_error_iff_witness :
    ∃ res, (train_and_test_model (fun (n : ℕ) (_ : List ℚ) (_ : List ℚ) => n + 1)
        (fun _ xs => xs) 0 [(1 : ℚ)] [(1 : ℚ)] [(2 : ℚ)] [(2 : ℚ)] "rmse").1
        = Except.ok res ∧ res.scoring_metric = "rmse" := by
  obtain ⟨res, e1, -, -, -, e5⟩ :=
    (train_and_test_model_error_iff (fun (n : ℕ) (_ : List ℚ) (_ : List ℚ) => n + 1)
      (fun _ xs => xs) 0 [(1 : ℚ)] [(1 : ℚ)] [(2 : ℚ)] [(2 : ℚ)]).2.2 "rmse"
      (Or.inl rfl)
  exact ⟨res, e1, e5⟩

/-- Claim C6: every prediction used by `train_and_test_model` is clipped to
be non-negative (floor at 0, no upper bound) before any metric is computed,
and with scoring metric `"rmse"` the returned train and test metrics are
the RMSE of the clipped predictions, hence both ≥ 0. -/
theorem train_and_test_model_rmse_nonneg {F E : Type}
    (fit : E → List F → List ℚ → E) (predict : E → List F → List ℚ)
    (estimator : E) (X_train : List F) (y_train : List ℚ)
    (X_test : List F) (y_test : List ℚ) :
    (∀ p ∈ clip0 (predict (fit estimator X_train y_train) X_train), 0 ≤ p) ∧
    (∀ p ∈ clip0 (predict (fit estimator X_train y_train) X_test), 0 ≤ p) ∧
    (∃ res, (train_and_test_model fit predict estimator X_train y_train
        X_test y_test "rmse").1 = Except.ok res ∧
      res.train_metric
        = rmse y_train (clip0 (predict (fit estimator X_train y_train) X_train)) ∧
      res.test_metric
        = rmse y_test (clip0 (predict (fit estimator X_train y_train) X_test)) ∧
      0 ≤ res.train_metric ∧ 0 ≤ res.test_metric) := by
  have hclip : ∀ l : List ℚ, ∀ p ∈ clip0 l, 0 ≤ p := by
    intro l p hp
    simp only [clip0, List.mem_map] at hp
    obtain ⟨q, -, hq⟩ := hp
    rw [← hq]
    exact le_max_right q 0
  refine ⟨hclip _, hclip _,
    ⟨⟨fit estimator X_train y_train,
      rmse y_train (clip0 (predict (fit estimator X_train y_train) X_train)),
      rmse y_test (clip0 (predict (fit estimator X_train y_train) X_test)),
      "rmse"⟩, ?_, rfl, rfl, ?_, ?_⟩⟩
  · simp [train_and_test_model]
  · exact Real.sqrt_nonneg _
  · exact Real.sqrt_nonneg _

/-- Concrete instantiation of `train_and_test_model_rmse_nonneg` on a toy
estimator. -/
theorem train_and_test_model_rmse_nonneg_witness :
    ∃ res, (train_and_test_model (fun (n : ℕ) (_ : List ℚ) (_ : List ℚ) => n + 1)
        (fun _ xs => xs) 0 [(1 : ℚ)] [(1 : ℚ)] [(2 : ℚ)] [(2 : ℚ)] "rmse").1
        = Except.ok res ∧ 0 ≤ res.train_metric ∧ 0 ≤ res.test_metric := by
  obtain ⟨res, e1, -, -, e4, e5⟩ :=
    (train_and_test_model_rmse_nonneg (fun (n : ℕ) (_ : List ℚ) (_ : List ℚ) => n + 1)
      (fun _ xs => xs) 0 [(1 : ℚ)] [(1 : ℚ)] [(2 : ℚ)] [(2 : ℚ)]).2.2
  exact ⟨res, e1, e4, e5⟩

/-- Claim C10: `train_and_test_model` is not atomic on error — the
estimator is fitted on the training data before the scoring-metric selector
is checked, so when an unrecognized selector raises the invalid-argument
error the caller's estimator has already been mutated to the fitted state;
the fitting side effect occurs on every call, whatever the selector. -/
theorem train_and_test_model_fits_before_check {F E : Type}
    (fit : E → List F → List ℚ → E) (predict : E → List F → List ℚ)
    (estimator : E) (X_train : List F) (y_train : List ℚ)
    (X_test : List F) (y_test : List ℚ) (sm : String)
    (h1 : sm ≠ "rmse") (h2 : sm ≠ "f1_weighted") :
    (train_and_test_model fit predict estimator X_train y_train
        X_test y_test sm).1 = Except.error "Scoring metric incorrectly specified" ∧
    (train_and_test_model fit predict estimator X_train y_train
        X_test y_test sm).2 = fit estimator X_train y_train ∧
    ∀ sm2 : String,
      (train_and_test_model fit predict estimator X_train y_train
        X_test y_test sm2).2 = fit estimator X_train y_train := by
  refine ⟨by simp [train_and_test_model, h1, h2],
    by simp [train_and_test_model, h1, h2], ?_⟩
  intro sm2
  by_cases g1 : sm2 = "rmse"
  · subst g1; simp [train_and_test_model]
  · by_cases g2 : sm2 = "f1_weighted"
    · subst g2; simp [train_and_test_model]
    · simp [train_and_test_model, g1, g2]

/-- Concrete instantiation of `train_and_test_model_fits_before_check`:
with selector `"xyz"` the call errors, yet the estimator state has been
advanced by the fit. -/
theorem train_and_test_model_fits_before_check_witness :
    (train_and_test_model (fun (n : ℕ) (_ : List ℚ) (_ : List ℚ) => n + 1)
        (fun _ xs => xs) 0 [(1 : ℚ)] [(1 : ℚ)] [(2 : ℚ)] [(2 : ℚ)] "xyz").1
      = Except.error "Scoring metric incorrectly specified" ∧
    (train_and_test_model (fun (n : ℕ) (_ : List ℚ) (_ : List ℚ) => n + 1)
        (fun _ xs => xs) 0 [(1 : ℚ)] [(1 : ℚ)] [(2 : ℚ)] [(2 : ℚ)] "xyz").2
      = (fun (n : ℕ) (_ : List ℚ) (_ : List ℚ) => n + 1) 0 [(1 : ℚ)] [(1 : ℚ)] := by
  have h := train_and_test_model_fits_before_check
    (fun (n : ℕ) (_ : List ℚ) (_ : List ℚ) => n + 1) (fun _ xs => xs) 0
    [(1 : ℚ)] [(1 : ℚ)] [(2 : ℚ)] [(2 : ℚ)] "xyz" (by decide) (by decide)
  exact ⟨h.1, h.2.1⟩

/-- Claim C9 (spec-modelled, `train_model` being absent from `src/`):
`train_model` raises the invalid-argument error iff the evaluator is
neither `"mean_absolute_error"` nor `"f1_weighted"` (e.g. `"xyz"` raises);
otherwise it returns the record with the rounded cross-validation mean and
standard deviation, the refit estimator, and the chosen evaluator's value
rounded to 3 decimals. -/
theorem train_model_error_iff {F E : Type}
    (search : List F → List ℚ → ℚ × ℚ × E)
    (fit : E → List F → List ℚ → E) (predict : E → List F → List ℚ)
    (X_train : List F) (y_train : List ℚ) :
    (∀ ev : String,
      (∃ msg, train_model search fit predict X_train y_train ev
        = Except.error msg) ↔ ¬(ev = "mean_absolute_error" ∨ ev = "f1_weighted")) ∧
    (∃ msg, train_model search fit predict X_train y_train "xyz"
      = Except.error msg) ∧
    (∀ ev : String, ev = "mean_absolute_error" ∨ ev = "f1_weighted" →
      ∃ res, train_model search fit predict X_train y_train ev = Except.ok res ∧
        res.cv_mean = roundTo 3 (search X_train y_train).1 ∧
        res.cv_std = roundTo 2 (search X_train y_train).2.1 ∧
        res.model = fit (search X_train y_train).2.2 X_train y_train ∧
        res.metric = (if ev = "mean_absolute_error"
          then roundTo 3 (mean_absolute_error y_train
            (clip0 (predict (fit (search X_train y_train).2.2 X_train y_train) X_train)))
          else roundTo 3 (f1_weighted y_train
            (clip0 (predict (fit (search X_train y_train).2.2 X_train y_train)
              X_train))))) := by
  refine ⟨?_, ?_, ?_⟩
  · intro ev
    by_cases g1 : ev = "mean_absolute_error"
    · subst g1; simp [train_model]
    · by_cases g2 : ev = "f1_weighted"
      · subst g2; simp [train_model]
      · simp [train_model, g1, g2]
  · simp [train_model]
  · intro ev hev
    rcases hev with h | h
    · subst h
      refine ⟨⟨roundTo 3 (search X_train y_train).1,
        roundTo 2 (search X_train y_train).2.1,
        fit (search X_train y_train).2.2 X_train y_train,
        roundTo 3 (mean_absolute_error y_train
          (clip0 (predict (fit (search X_train y_train).2.2 X_train y_train)
            X_train)))⟩, ?_, rfl, rfl, rfl, ?_⟩
      · simp [train_model]
      · simp
    · subst h
      refine ⟨⟨roundTo 3 (search X_train y_train).1,
        roundTo 2 (search X_train y_train).2.1,
        fit (search X_train y_train).2.2 X_train y_train,
        roundTo 3 (f1_weighted y_train
          (clip0 (predict (fit (search X_train y_train).2.2 X_train y_train)
            X_train)))⟩, ?_, rfl, rfl, rfl, ?_⟩
      · simp [train_model]
      · simp

/-- Concrete instantiation of `train_model_error_iff`: evaluator `"xyz"`
raises on a toy search controller. -/
theorem train_model_error_iff_witness :
    ∃ msg, train_model (fun (_ : List ℚ) (_ : List ℚ) => ((1 : ℚ), (1 : ℚ), (0 : ℕ)))
      (fun n _ _ => n + 1) (fun _ xs => xs) [(1 : ℚ)] [(1 : ℚ)] "xyz"
      = Except.error msg :=
  (train_model_error_iff (fun (_ : List ℚ) (_ : List ℚ) => ((1 : ℚ), (1 : ℚ), (0 : ℕ)))
    (fun n _ _ => n + 1) (fun _ xs => xs) [(1 : ℚ)] [(1 : ℚ)]).2.1
